import Mathlib

/-!
Shallow embedding of the core of `sqlite_fdw` (files `src/shippable.c` and
`src/sqlite_fdw.c`) together with theorems settling the specification claims
about predicate classification, the shippability cache, the scan lifecycle,
row materialization, statement preparation, and schema import.

Machine integers (`Oid`) are modelled as `Nat`; catalog lookups and the
`is_foreign_expr` oracle are passed in as explicit environments; stateful code
is modelled by explicit state passing, and the native resource operations
(`sqlite3_close`, `sqlite3_finalize`, ...) are recorded in explicit action
traces so that claims about teardown order can be stated.
-/

set_option autoImplicit false

/-! ## shippable.c -/

/-- PostgreSQL object identifiers, modelled as naturals (`InvalidOid = 0`). -/
abbrev Oid := Nat

/-- `FirstBootstrapObjectId` from `access/transam.h`. -/
def FirstBootstrapObjectId : Oid := 10000

/-- `is_builtin` (shippable.c:160): objects below the bootstrap cutoff. -/
def is_builtin (objectId : Oid) : Bool :=
  objectId < FirstBootstrapObjectId

/-- `ShippableCacheKey` (shippable.c:49): the hash key is the triple
(object OID, catalog OID, FDW server OID). -/
structure ShippableCacheKey where
  objid : Oid
  classid : Oid
  serverid : Oid
deriving DecidableEq, Repr

/-- `ShippableCacheEntry` (shippable.c:57). -/
structure ShippableCacheEntry where
  key : ShippableCacheKey
  shippable : Bool
deriving DecidableEq, Repr

/-- The contents of the `ShippableCacheHash` hash table. -/
abbrev ShippableCache := List ShippableCacheEntry

/-- The fields of `SqliteFdwRelationInfo` (sqlite_private.h) consulted by
`is_shippable`: the whitelisted extension OIDs of the target server. -/
structure SqliteFdwRelationInfo where
  shippable_extensions : List Oid
deriving DecidableEq, Repr

/-- Environment for `getExtensionOfObject (classId, objectId)`: the owning
extension's OID, or `0` (`InvalidOid`) when the object belongs to none. -/
abbrev ExtensionCatalog := Oid → Oid → Oid

/-- `OidIsValid` from PostgreSQL: any OID other than `InvalidOid`. -/
def OidIsValid (o : Oid) : Bool :=
  o ≠ 0

/-- `lookup_shippable` (shippable.c:124): the expensive catalog walk; true iff
the owning extension is valid and whitelisted in `fpinfo`. -/
def lookup_shippable (cat : ExtensionCatalog) (objectId classId : Oid)
    (fpinfo : SqliteFdwRelationInfo) : Bool :=
  let extensionOid := cat classId objectId
  OidIsValid extensionOid && fpinfo.shippable_extensions.contains extensionOid

/-- `hash_search(... HASH_FIND ...)` over the modelled cache contents. -/
def hash_search_find : ShippableCache → ShippableCacheKey → Option ShippableCacheEntry
  | [], _ => none
  | e :: rest, key => if e.key = key then some e else hash_search_find rest key

/-- The backend-global state owned by shippable.c: `ShippableCacheHash`,
which is `NULL` (`none`) until `InitializeShippableCache` runs. -/
structure ShippableState where
  cacheHash : Option ShippableCache
deriving DecidableEq, Repr

/-- `is_shippable` (shippable.c:170).  Returns the decision, the successor
global state, and the number of `lookup_shippable` catalog walks performed
(0 or 1).  Note the source sets `key.serverid = 0` (shippable.c:191). -/
def is_shippable (cat : ExtensionCatalog) (objectId classId : Oid)
    (fpinfo : SqliteFdwRelationInfo) (st : ShippableState) :
    Bool × ShippableState × Nat :=
  if is_builtin objectId then (true, st, 0)
  else if fpinfo.shippable_extensions = [] then (false, st, 0)
  else
    let cache := st.cacheHash.getD []
    let key : ShippableCacheKey := ⟨objectId, classId, 0⟩
    match hash_search_find cache key with
    | some entry => (entry.shippable, ⟨some cache⟩, 0)
    | none =>
      let shippable := lookup_shippable cat objectId classId fpinfo
      (shippable, ⟨some (⟨key, shippable⟩ :: cache)⟩, 1)

/-- The `hash_seq_search`/`HASH_REMOVE` loop of the invalidation callback
(shippable.c:84): every scanned entry is removed. -/
def hash_seq_remove_all : ShippableCache → ShippableCache
  | [] => []
  | _ :: rest => hash_seq_remove_all rest

/-- `InvalidateShippableCacheCallback` (shippable.c:72): flush all entries
unconditionally (registered only once the cache exists). -/
def InvalidateShippableCacheCallback (st : ShippableState) : ShippableState :=
  match st.cacheHash with
  | none => st
  | some c => ⟨some (hash_seq_remove_all c)⟩

/-- The fields of `Form_pg_proc` read by `is_allowed_name`. -/
structure FormPgProc where
  proname : String
  pronamespace : Oid
deriving DecidableEq, Repr

/-- `PG_CATALOG_NAMESPACE` from `catalog/pg_namespace.h`. -/
def PG_CATALOG_NAMESPACE : Oid := 11

/-- Environment for `SearchSysCache1(PROCOID, funcid)`: `none` models an
invalid heap tuple. -/
abbrev ProcSysCache := Oid → Option FormPgProc

/-- `is_inarray` (shippable.c:223): strcmp the test string against each
array member. -/
def is_inarray (teststr : String) : List String → Bool
  | [] => false
  | s :: rest => if teststr = s then true else is_inarray teststr rest

/-- `is_allowed_name` (shippable.c:233): fatal lookup error when the funcid
does not resolve; otherwise name membership, only within `pg_catalog`. -/
def is_allowed_name (cache : ProcSysCache) (funcid : Oid)
    (allowed_names : List String) : Except String Bool :=
  match cache funcid with
  | none => Except.error ("cache lookup failed for function " ++ toString funcid)
  | some procform =>
    Except.ok
      (if procform.pronamespace = PG_CATALOG_NAMESPACE then
        is_inarray procform.proname allowed_names
      else false)

/-- `is_shippable_agg` (shippable.c:256). -/
def is_shippable_agg (cache : ProcSysCache) (funcid : Oid) : Except String Bool :=
  is_allowed_name cache funcid ["avg", "average", "max", "min", "sum"]

/-- `is_shippable_func` (shippable.c:265). -/
def is_shippable_func (cache : ProcSysCache) (funcid : Oid) : Except String Bool :=
  is_allowed_name cache funcid ["abs", "coalesce"]

/-- `is_shippable_op` (shippable.c:274). -/
def is_shippable_op (cache : ProcSysCache) (funcid : Oid) : Except String Bool :=
  is_allowed_name cache funcid ["avg", "average", "max", "min", "sum"]

/-! ## Predicate classification (sqlite_fdw.c) -/

/-- A `RestrictInfo` as consulted by the classification code: `rid` models the
node's pointer identity (`list_member_ptr` compares addresses), `clauseId`
models the identity of `ri->clause`. -/
structure RestrictInfo where
  rid : Nat
  pseudoconstant : Bool
  clauseId : Nat
deriving DecidableEq, Repr

/-- The external `is_foreign_expr` oracle, a function of the clause. -/
abbrev ForeignExprTest := Nat → Bool

/-- The classification loop of `sqliteGetForeignRelSize` (sqlite_fdw.c:522):
each baserestrictinfo clause is appended to `remote_conds` when
`is_foreign_expr` accepts it, else to `local_conds`. -/
def sqliteGetForeignRelSize_classify (isForeign : ForeignExprTest) :
    List RestrictInfo → List RestrictInfo × List RestrictInfo
  | [] => ([], [])
  | ri :: rest =>
    let acc := sqliteGetForeignRelSize_classify isForeign rest
    if isForeign ri.clauseId then (ri :: acc.1, acc.2) else (acc.1, ri :: acc.2)

/-- `list_member_ptr`: pointer-identity membership. -/
def list_member_ptr (conds : List RestrictInfo) (ri : RestrictInfo) : Bool :=
  conds.any (fun r => r.rid = ri.rid)

/-- The three lists built by the `sqliteGetForeignPlan` classification loop. -/
structure PlanClassification where
  remote_conds : List RestrictInfo
  remote_exprs : List Nat
  local_exprs : List Nat
deriving DecidableEq, Repr

/-- The classification loop of `sqliteGetForeignPlan` (sqlite_fdw.c:661):
pseudoconstants are skipped; clauses previously classified (looked up by
pointer in `fpinfo->remote_conds` / `fpinfo->local_conds`) keep their side;
anything else is classified afresh by `is_foreign_expr`. -/
def sqliteGetForeignPlan_classify (isForeign : ForeignExprTest)
    (fpinfo_remote fpinfo_local : List RestrictInfo) :
    List RestrictInfo → PlanClassification
  | [] => ⟨[], [], []⟩
  | rinfo :: rest =>
    let acc := sqliteGetForeignPlan_classify isForeign fpinfo_remote fpinfo_local rest
    if rinfo.pseudoconstant then acc
    else if list_member_ptr fpinfo_remote rinfo then
      ⟨rinfo :: acc.remote_conds, rinfo.clauseId :: acc.remote_exprs, acc.local_exprs⟩
    else if list_member_ptr fpinfo_local rinfo then
      ⟨acc.remote_conds, acc.remote_exprs, rinfo.clauseId :: acc.local_exprs⟩
    else if isForeign rinfo.clauseId then
      ⟨rinfo :: acc.remote_conds, rinfo.clauseId :: acc.remote_exprs, acc.local_exprs⟩
    else
      ⟨acc.remote_conds, acc.remote_exprs, rinfo.clauseId :: acc.local_exprs⟩

/-- The side a non-pseudoconstant clause is sent to by the final-plan loop
(`true` = remote): prior remote classification wins, then prior local
classification, then the oracle. -/
def planSide (isForeign : ForeignExprTest)
    (fpinfo_remote fpinfo_local : List RestrictInfo) (rinfo : RestrictInfo) : Bool :=
  if list_member_ptr fpinfo_remote rinfo then true
  else if list_member_ptr fpinfo_local rinfo then false
  else isForeign rinfo.clauseId

/-! ## Scan lifecycle (sqlite_fdw.c) -/

/-- Native resource operations performed by the execution state machine. -/
inductive SqliteAction where
  | finalize (stmt : Nat)
  | close (db : Nat)
  | freeQuery (q : String)
deriving DecidableEq, Repr

/-- `SQLiteFdwExecutionState` (sqlite_fdw.c:233), restricted to the fields
`cleanup_` reads: the connection handle, statement handle and query text,
each `none` when the corresponding pointer is `NULL`. -/
structure SQLiteFdwExecutionState where
  db : Option Nat
  stmt : Option Nat
  query : Option String
deriving DecidableEq, Repr

/-- `cleanup_` (sqlite_fdw.c:1572), translated exactly: the statement branch
finalizes and nulls `stmt`; the connection branch closes `db` but then
(source line 1581) assigns `NULL` to `stmt` rather than to `db`; the query
branch frees and nulls `query`.  Returns the new state and the trace of
native calls made. -/
def cleanup_ (festate : SQLiteFdwExecutionState) :
    SQLiteFdwExecutionState × List SqliteAction :=
  let step1 : SQLiteFdwExecutionState × List SqliteAction :=
    match festate.stmt with
    | some h => ({ festate with stmt := none }, [SqliteAction.finalize h])
    | none => (festate, [])
  let step2 : SQLiteFdwExecutionState × List SqliteAction :=
    match step1.1.db with
    | some h => ({ step1.1 with stmt := none }, step1.2 ++ [SqliteAction.close h])
    | none => step1
  match step2.1.query with
  | some q => ({ step2.1 with query := none }, step2.2 ++ [SqliteAction.freeQuery q])
  | none => step2

/-- The position of a prepared statement inside its result set: `sqlite3_step`
yields the rows (each a list of column texts) one at a time. -/
structure SqliteStmtCursor where
  rows : List (List String)
  pos : Nat
deriving DecidableEq, Repr

/-- `sqlite3_step`: the next row (`SQLITE_ROW`) or `none` (`SQLITE_DONE`). -/
def sqlite3_step (st : SqliteStmtCursor) : Option (List String) × SqliteStmtCursor :=
  match st.rows.get? st.pos with
  | some r => (some r, { st with pos := st.pos + 1 })
  | none => (none, st)

/-- `sqliteReScanForeignScan` (sqlite_fdw.c:841): the function body only logs;
the execution state (and hence the statement's cursor) is left untouched. -/
def sqliteReScanForeignScan (st : SqliteStmtCursor) : SqliteStmtCursor := st

/-- The `values` array built by `sqliteIterateForeignScan` (sqlite_fdw.c:825):
one entry per *result* column, `values[x] = sqlite3_column_text(stmt, x)`,
copied in result-column order.  `festate->retrieved_attrs` is not consulted
and no null entries are produced. -/
def sqliteIterateForeignScan_values (resultRow : List String) : List String :=
  resultRow.map (fun v => v)

/-- The materialization contract stated by the specification, for comparison
with the loop above: one entry per host table column (`natts` of them, here
attribute numbers 1..natts); a host column absent from `retrieved_attrs` is an
explicit null; result column `j` lands at the host column whose attribute
number is `retrieved_attrs[j]`. -/
def spec_materialize (natts : Nat) (retrieved_attrs : List Nat)
    (resultRow : List String) : List (Option String) :=
  (List.range natts).map (fun i =>
    match retrieved_attrs.findIdx? (fun a => a = i + 1) with
    | some j => resultRow.get? j
    | none => none)

/-- Error codes raised by the connection/prepare helpers. -/
inductive FdwErrorCode where
  | fdw_out_of_memory
  | fdw_unable_to_create_execution
deriving DecidableEq, Repr

/-- `sqliteOpen` (sqlite_fdw.c:388): on `sqlite3_open` failure it reports a
fatal error directly — no native call precedes the `ereport` (the action
trace carried by the error is empty).  On success the handle is returned. -/
def sqliteOpen (openOk : Bool) (db : Nat) :
    Except (FdwErrorCode × List SqliteAction) (Nat × List SqliteAction) :=
  if openOk then Except.ok (db, [])
  else Except.error (FdwErrorCode.fdw_out_of_memory, [])

/-- `sqlitePrepare` (sqlite_fdw.c:405): on `sqlite3_prepare_v2` failure the
connection is closed (`sqlite3_close(db)`, recorded in the error's action
trace) before the fatal error is reported. -/
def sqlitePrepare (prepareOk : Bool) (db stmt : Nat) :
    Except (FdwErrorCode × List SqliteAction) (Nat × List SqliteAction) :=
  if prepareOk then Except.ok (stmt, [])
  else Except.error (FdwErrorCode.fdw_unable_to_create_execution, [SqliteAction.close db])

/-- The action trace accumulated on an error path. -/
def errorTrace (r : Except (FdwErrorCode × List SqliteAction) (Nat × List SqliteAction)) :
    List SqliteAction :=
  match r with
  | Except.error (_, tr) => tr
  | Except.ok (_, tr) => tr

/-! ## Schema import (sqlite_fdw.c) -/

/-- One row of `PRAGMA table_info`: column name, declared type, the notnull
flag, and the default expression (a NULL pointer modelled as `none`). -/
structure SqliteColumn where
  name : String
  typ : String
  notnull : Bool
  dflt_value : Option String
deriving DecidableEq, Repr

/-- One table enumerated by the `sqlite_master` query, with its columns. -/
structure SqliteTable where
  name : String
  cols : List SqliteColumn
deriving DecidableEq, Repr

/-- ASCII lowercase of one character (`str_tolower` with the C collation). -/
def ascii_tolower_char (c : Char) : Char :=
  if 65 ≤ c.toNat ∧ c.toNat ≤ 90 then Char.ofNat (c.toNat + 32) else c

/-- `str_tolower(typname, ..., C_COLLATION_OID)`. -/
def str_tolower (s : String) : String :=
  ⟨s.data.map ascii_tolower_char⟩

/-- `strncmp(a, b, n) == 0`, on the first `n` characters. -/
def strncmp_eq (a b : String) (n : Nat) : Bool :=
  a.data.take n = b.data.take n

/-- `sqliteTranslateType` (sqlite_fdw.c:1441): lowercase the type name, then
a fixed exact-or-prefix translation table; unmatched names pass through
lowercased. -/
def sqliteTranslateType (typname : String) : String :=
  let type := str_tolower typname
  if type = "tinyint" then "smallint"
  else if type = "mediumint" then "integer"
  else if type = "unsigned big int" then "bigint"
  else if type = "double" then "double precision"
  else if type = "datetime" then "timestamp"
  else if type = "nvarchar text" then "text"
  else if type = "longvarchar" then "text"
  else if strncmp_eq type "text" 4 then "text"
  else if type = "blob" then "bytea"
  else if type = "integer" then "bigint"
  else type

/-- PostgreSQL's `quote_identifier`, modelled for the identifiers arising in
this development: a name made only of lowercase ASCII letters and underscores
is returned unchanged, anything else is wrapped in double quotes (the
keyword check of the original is not modelled). -/
def quote_identifier (s : String) : String :=
  if s.data.all (fun c => (97 ≤ c.toNat && c.toNat ≤ 122) || c = '_') then s
  else "\"" ++ s ++ "\""

/-- The per-column clause appended by the import loop (sqlite_fdw.c:1368):
quoted column name, a space, the translated type, then ` NOT NULL` only when
the column is notnull and `import_not_null` is set, then ` DEFAULT expr`
only when a default exists and `import_default` is set. -/
def sqliteColumnClause (import_not_null import_default : Bool)
    (col : SqliteColumn) : String :=
  quote_identifier col.name ++ " " ++ sqliteTranslateType col.typ
    ++ (if col.notnull && import_not_null then " NOT NULL" else "")
    ++ (match col.dflt_value, import_default with
        | some d, true => " DEFAULT " ++ d
        | _, _ => "")

/-- The `CREATE FOREIGN TABLE` statement assembled per table
(sqlite_fdw.c:1348 and 1386): header, the column clauses joined by `,\n`,
then the SERVER/OPTIONS trailer. -/
def sqliteImportForeignSchema_cft (local_schema server_name : String)
    (import_not_null import_default : Bool) (tbl : SqliteTable) : String :=
  "CREATE FOREIGN TABLE " ++ local_schema ++ "." ++ quote_identifier tbl.name
    ++ " (\n"
    ++ String.intercalate ",\n"
        (tbl.cols.map (sqliteColumnClause import_not_null import_default))
    ++ "\n) SERVER " ++ quote_identifier server_name
    ++ "\nOPTIONS (table '" ++ quote_identifier tbl.name ++ "')"

/-- Resource operations performed by `sqliteImportForeignSchema`. -/
inductive ImportAction where
  | openDb (file : String)
  | prepare (query : String)
  | finalizeStmt (query : String)
  | closeDb (file : String)
deriving DecidableEq, Repr

/-- The table-enumeration query built at sqlite_fdw.c:1302 (without the
LIMIT TO / EXCEPT suffix). -/
def sqlite_master_query : String :=
  "SELECT name FROM sqlite_master WHERE type = 'table' AND name NOT LIKE 'sqlite_%'"

/-- The per-table column query built at sqlite_fdw.c:1353. -/
def pragma_table_info (tbl_name : String) : String :=
  "PRAGMA table_info(" ++ tbl_name ++ ")"

/-- `sqliteImportForeignSchema` (sqlite_fdw.c:1234) on the successful path:
`tables` models the rows returned by the `sqlite_master` query.  Returns the
command list and the trace of resource operations: the connection is opened,
the table statement is prepared, one column statement is prepared per table
(and — exactly as in the source — never finalized on any path), then the
table statement is finalized and the connection closed. -/
def sqliteImportForeignSchema (database : String) (tables : List SqliteTable)
    (local_schema server_name : String) (import_not_null import_default : Bool) :
    List String × List ImportAction :=
  (tables.map
      (sqliteImportForeignSchema_cft local_schema server_name
        import_not_null import_default),
   [ImportAction.openDb database, ImportAction.prepare sqlite_master_query]
     ++ tables.map (fun t => ImportAction.prepare (pragma_table_info t.name))
     ++ [ImportAction.finalizeStmt sqlite_master_query, ImportAction.closeDb database])

/-! ## Concrete environments used by the counterexample theorems -/

/-- Catalog in which object 20000 (of any catalog class) belongs to
extension 7. -/
def c8_catalog : ExtensionCatalog := fun _ _ => 7

/-- Relation info of a server whitelisting extension 7. -/
def serverA_fpinfo : SqliteFdwRelationInfo := ⟨[7]⟩

/-- Relation info of a different server whitelisting only extension 9. -/
def serverB_fpinfo : SqliteFdwRelationInfo := ⟨[9]⟩

/-! ## Helper lemmas -/

/-- The sizing-time loop is the filter of the input by the oracle. -/
theorem relSize_classify_eq_filter (isForeign : ForeignExprTest)
    (conds : List RestrictInfo) :
    sqliteGetForeignRelSize_classify isForeign conds =
      (conds.filter (fun ri => isForeign ri.clauseId),
       conds.filter (fun ri => !isForeign ri.clauseId)) := by
  induction conds with
  | nil => rfl
  | cons ri rest ih =>
    simp only [sqliteGetForeignRelSize_classify, ih, List.filter_cons]
    cases h : isForeign ri.clauseId <;> simp [h]

/-- The final-plan loop filters out pseudoconstants and splits the rest by
`planSide`. -/
theorem plan_classify_eq_filter (isForeign : ForeignExprTest)
    (fr fl : List RestrictInfo) (scan : List RestrictInfo) :
    sqliteGetForeignPlan_classify isForeign fr fl scan =
      ⟨((scan.filter (fun ri => !ri.pseudoconstant)).filter
          (planSide isForeign fr fl)),
       (((scan.filter (fun ri => !ri.pseudoconstant)).filter
          (planSide isForeign fr fl)).map (fun ri => ri.clauseId)),
       (((scan.filter (fun ri => !ri.pseudoconstant)).filter
          (fun ri => !planSide isForeign fr fl ri)).map (fun ri => ri.clauseId))⟩ := by
  induction scan with
  | nil => rfl
  | cons rinfo rest ih =>
    simp only [sqliteGetForeignPlan_classify, ih, List.filter_cons]
    cases hp : rinfo.pseudoconstant <;>
      cases hr : list_member_ptr fr rinfo <;>
        cases hl : list_member_ptr fl rinfo <;>
          cases hf : isForeign rinfo.clauseId <;>
            simp [planSide, hp, hr, hl, hf]

/-- The invalidation loop leaves no entry behind. -/
theorem hash_seq_remove_all_eq_nil (c : ShippableCache) :
    hash_seq_remove_all c = [] := by
  induction c with
  | nil => rfl
  | cons e rest ih => simpa [hash_seq_remove_all] using ih

/-! ## Claim theorems -/

/-- C1 counterexample: at final-plan time a pseudoconstant clause is skipped
and appears in neither the remote nor the local list, so the union of the two
lists does not equal the original clause list. -/
theorem plan_classification_drops_pseudoconstants :
    (sqliteGetForeignPlan_classify (fun _ => true) [] []
        [⟨1, true, 10⟩]).remote_exprs = [] ∧
    (sqliteGetForeignPlan_classify (fun _ => true) [] []
        [⟨1, true, 10⟩]).local_exprs = [] ∧
    ¬ ((10 : Nat) ∈ (sqliteGetForeignPlan_classify (fun _ => true) [] []
          [⟨1, true, 10⟩]).remote_exprs ∨
       (10 : Nat) ∈ (sqliteGetForeignPlan_classify (fun _ => true) [] []
          [⟨1, true, 10⟩]).local_exprs) := by
  decide

/-- C1 (amended): the sizing-time classification strictly partitions the
restriction-clause list (union is a permutation of the input, no clause in
both lists); the final-plan classification strictly partitions the
non-pseudoconstant clauses of `scan_clauses`, pseudoconstant clauses being
skipped and appearing in neither list. -/
theorem classification_strict_partition (isForeign : ForeignExprTest)
    (conds scan fr fl : List RestrictInfo) :
    ((sqliteGetForeignRelSize_classify isForeign conds).1 ++
       (sqliteGetForeignRelSize_classify isForeign conds).2).Perm conds ∧
    (∀ ri, ri ∈ (sqliteGetForeignRelSize_classify isForeign conds).1 →
        ri ∉ (sqliteGetForeignRelSize_classify isForeign conds).2) ∧
    ((sqliteGetForeignPlan_classify isForeign fr fl scan).remote_exprs ++
       (sqliteGetForeignPlan_classify isForeign fr fl scan).local_exprs).Perm
      ((scan.filter (fun ri => !ri.pseudoconstant)).map (fun ri => ri.clauseId)) := by
  refine ⟨?_, ?_, ?_⟩
  · rw [relSize_classify_eq_filter]
    exact List.filter_append_perm _ conds
  · rw [relSize_classify_eq_filter]
    intro ri hr hl
    have h1 := (List.mem_filter.mp hr).2
    have h2 := (List.mem_filter.mp hl).2
    simp [h1] at h2
  · rw [plan_classify_eq_filter]
    have h := (List.filter_append_perm (planSide isForeign fr fl)
        (scan.filter (fun ri => !ri.pseudoconstant))).map
        (fun ri : RestrictInfo => ri.clauseId)
    simpa using h

/-- C2: for a non-builtin object under a non-empty shippable-extension list,
a cache miss performs exactly one `lookup_shippable` and stores its result; a
cache hit performs none and returns the cached boolean; the invalidation
callback removes every entry, so the next call misses and looks up afresh. -/
theorem is_shippable_caches_lookups (cat : ExtensionCatalog)
    (objectId classId : Oid) (fpinfo : SqliteFdwRelationInfo)
    (st : ShippableState)
    (hnb : is_builtin objectId = false)
    (hext : ¬ fpinfo.shippable_extensions = []) :
    (hash_search_find (st.cacheHash.getD []) ⟨objectId, classId, 0⟩ = none →
      is_shippable cat objectId classId fpinfo st
        = (lookup_shippable cat objectId classId fpinfo,
           ⟨some (⟨⟨objectId, classId, 0⟩, lookup_shippable cat objectId classId fpinfo⟩
                   :: st.cacheHash.getD [])⟩, 1)) ∧
    (∀ entry, hash_search_find (st.cacheHash.getD []) ⟨objectId, classId, 0⟩ = some entry →
      is_shippable cat objectId classId fpinfo st
        = (entry.shippable, ⟨some (st.cacheHash.getD [])⟩, 0)) ∧
    (∀ c, InvalidateShippableCacheCallback ⟨some c⟩ = ⟨some []⟩) ∧
    (∀ c, hash_search_find (hash_seq_remove_all c) ⟨objectId, classId, 0⟩ = none) := by
  refine ⟨?_, ?_, ?_, ?_⟩
  · intro hmiss
    simp [is_shippable, hnb, hext, hmiss]
  · intro entry hhit
    simp [is_shippable, hnb, hext, hhit]
  · intro c
    simp [InvalidateShippableCacheCallback, hash_seq_remove_all_eq_nil]
  · intro c
    simp [hash_seq_remove_all_eq_nil, hash_search_find]

/-- Witness for C2 at a concrete input: object 20000 in catalog class 1255,
one whitelisted extension (OID 5) owning the object, starting from the
uninitialized cache. -/
theorem is_shippable_caches_lookups_witness :
    is_builtin 20000 = false ∧
    ¬ (SqliteFdwRelationInfo.mk [5]).shippable_extensions = [] ∧
    is_shippable (fun _ _ => 5) 20000 1255 ⟨[5]⟩ ⟨none⟩
      = (true, ⟨some [⟨⟨20000, 1255, 0⟩, true⟩]⟩, 1) := by
  refine ⟨rfl, by decide, ?_⟩
  have h := (is_shippable_caches_lookups (fun _ _ => 5) 20000 1255 ⟨[5]⟩ ⟨none⟩
      rfl (by decide)).1 rfl
  have hl : lookup_shippable (fun _ _ => 5) 20000 1255 ⟨[5]⟩ = true := by decide
  rw [hl] at h
  exact h

/-- C3 (code bug): `cleanup_` is null-safe on a never-begun state, but after
closing the connection it nulls `stmt` instead of `db` (sqlite_fdw.c:1581),
so the connection field survives teardown and a second call closes the
already-released handle again. -/
theorem cleanup_not_idempotent :
    cleanup_ ⟨none, none, none⟩ = (⟨none, none, none⟩, []) ∧
    (cleanup_ ⟨some 1, some 2, some "q"⟩).1 = ⟨some 1, none, none⟩ ∧
    (cleanup_ ⟨some 1, some 2, some "q"⟩).2
      = [SqliteAction.finalize 2, SqliteAction.close 1, SqliteAction.freeQuery "q"] ∧
    (cleanup_ (cleanup_ ⟨some 1, some 2, some "q"⟩).1).2 = [SqliteAction.close 1] := by
  decide

/-- C4 (code bug): on a 3-column host table with retrieved-attribute list [2]
and a one-column result row, the iterate loop produces one positional entry,
not one entry per host column, inserts no explicit nulls, and disagrees with
the retrieved-attribute mapping the specification requires. -/
theorem iterate_ignores_retrieved_attrs :
    sqliteIterateForeignScan_values ["v"] = ["v"] ∧
    (sqliteIterateForeignScan_values ["v"]).length ≠ 3 ∧
    spec_materialize 3 [2] ["v"] = [none, some "v", none] ∧
    (sqliteIterateForeignScan_values ["v"]).map some ≠ spec_materialize 3 [2] ["v"] := by
  decide

/-- C5 counterexample: when the database file cannot be opened, the fatal
error is raised with an empty teardown trace — in particular no
`sqlite3_close` precedes it, contrary to the claim that both failure paths
close the connection first. -/
theorem open_failure_does_not_close :
    sqliteOpen false 1 = Except.error (FdwErrorCode.fdw_out_of_memory, []) ∧
    SqliteAction.close 1 ∉ errorTrace (sqliteOpen false 1) := by
  exact ⟨rfl, by simp [sqliteOpen, errorTrace]⟩

/-- C5 (amended): when the deparsed query cannot be prepared, the connection
is closed before the fatal error propagates; when the file cannot be opened,
a fatal error aborting the statement is raised but no close is performed
first. -/
theorem begin_failure_teardown (db stmt : Nat) :
    sqlitePrepare false db stmt
      = Except.error (FdwErrorCode.fdw_unable_to_create_execution,
          [SqliteAction.close db]) ∧
    sqliteOpen false db = Except.error (FdwErrorCode.fdw_out_of_memory, []) :=
  ⟨rfl, rfl⟩

/-- C6 (code bug): importing a database with one table prepares one
per-column `PRAGMA table_info` statement and never finalizes it, while the
table statement and the connection are released — the per-column statement
leaks on every path. -/
theorem import_leaks_column_statements :
    (sqliteImportForeignSchema "db.sqlite" [⟨"t", [⟨"a", "integer", false, none⟩]⟩]
        "public" "srv" true false).2.count
      (ImportAction.prepare (pragma_table_info "t")) = 1 ∧
    (sqliteImportForeignSchema "db.sqlite" [⟨"t", [⟨"a", "integer", false, none⟩]⟩]
        "public" "srv" true false).2.count
      (ImportAction.finalizeStmt (pragma_table_info "t")) = 0 ∧
    (sqliteImportForeignSchema "db.sqlite" [⟨"t", [⟨"a", "integer", false, none⟩]⟩]
        "public" "srv" true false).2.count
      (ImportAction.finalizeStmt sqlite_master_query) = 1 ∧
    (sqliteImportForeignSchema "db.sqlite" [⟨"t", [⟨"a", "integer", false, none⟩]⟩]
        "public" "srv" true false).2.count
      (ImportAction.closeDb "db.sqlite") = 1 := by
  decide

/-- C7: importing `(id INTEGER NOT NULL, name TEXT, price DOUBLE)` with
`import_not_null = true` and `import_default = false` yields exactly the
column clauses `id bigint NOT NULL`, `name text`, `price double precision`
in that order, and the assembled statement embeds them verbatim. -/
theorem import_round_trip_clauses :
    ([⟨"id", "INTEGER", true, none⟩, ⟨"name", "TEXT", false, none⟩,
        ⟨"price", "DOUBLE", false, none⟩] : List SqliteColumn).map
      (sqliteColumnClause true false)
      = ["id bigint NOT NULL", "name text", "price double precision"] ∧
    (sqliteImportForeignSchema "db.sqlite"
        [⟨"t", [⟨"id", "INTEGER", true, none⟩, ⟨"name", "TEXT", false, none⟩,
                ⟨"price", "DOUBLE", false, none⟩]⟩] "public" "srv" true false).1
      = ["CREATE FOREIGN TABLE public.t (\nid bigint NOT NULL,\nname text,\nprice double precision\n) SERVER srv\nOPTIONS (table 't')"] := by
  decide

/-- C8 (code bug): `is_shippable` builds its key with `serverid = 0`
regardless of the server, so a decision cached while planning against a
server whitelisting the owning extension (extension 7) is returned unchanged
— with no fresh lookup — for a different server whose whitelist (extension 9
only) would make the object non-shippable. -/
theorem shippable_cache_ignores_serverid :
    (is_shippable c8_catalog 20000 1255 serverA_fpinfo ⟨none⟩).1 = true ∧
    lookup_shippable c8_catalog 20000 1255 serverB_fpinfo = false ∧
    (is_shippable c8_catalog 20000 1255 serverB_fpinfo
        (is_shippable c8_catalog 20000 1255 serverA_fpinfo ⟨none⟩).2.1).1 = true ∧
    (is_shippable c8_catalog 20000 1255 serverB_fpinfo
        (is_shippable c8_catalog 20000 1255 serverA_fpinfo ⟨none⟩).2.1).2.2 = 0 := by
  decide

/-- C9 (code bug): `sqliteReScanForeignScan` leaves the statement cursor
untouched, so after reading the first of two rows, a rescan followed by an
iterate yields the second row instead of restarting from the first. -/
theorem rescan_does_not_restart :
    (sqlite3_step ⟨[["a"], ["b"]], 0⟩).1 = some ["a"] ∧
    sqliteReScanForeignScan (sqlite3_step ⟨[["a"], ["b"]], 0⟩).2
      = (sqlite3_step ⟨[["a"], ["b"]], 0⟩).2 ∧
    (sqlite3_step (sqliteReScanForeignScan
        (sqlite3_step ⟨[["a"], ["b"]], 0⟩).2)).1 = some ["b"] := by
  decide

/-- C10: `is_shippable_op` and `is_shippable_agg` consult the identical
allowlist `avg, average, max, min, sum` within the built-in namespace, so for
every catalog state and every function identifier the two return the same
result (the same error on an unresolvable identifier, the same boolean
otherwise). -/
theorem op_agg_allowlists_coincide :
    ∀ (cache : ProcSysCache) (funcid : Oid),
      is_shippable_op cache funcid = is_shippable_agg cache funcid := by
  intro cache funcid
  rfl
